import Mathlib

/-!
Shallow embedding of the chat backend (`backend/server.js`) of the
chatterbot-quick repository, covering the conversation-history
normalizer (`sanitizeHistory`) and the `/api/chat` provider-dispatch
handler, together with proofs of the spec's testable properties.

The repository contains three near-identical revisions of
`backend/server.js`.  `sanitizeHistory` and the groq (secondary
provider) branch are identical in all three; the gemini (primary
provider) branch differs in one line: the first two revisions select
`requestedType.includes("flash") ? MODEL_FLASH : MODEL_PRO`, while the
third selects `requestedType.includes("pro") ? MODEL_PRO : MODEL_FLASH`.
Both selection expressions are embedded below.

JavaScript string helpers (`toLowerCase`, `trim`, `includes`) are
re-implemented over `List Char` so that they reduce in the kernel;
they are faithful to the JS semantics on the ASCII inputs the claims
quantify over.
-/

namespace Chatterbot

/-- JS `String.prototype.toLowerCase` on an ASCII letter. -/
def charLower (c : Char) : Char :=
  if 'A' ≤ c && c ≤ 'Z' then Char.ofNat (c.toNat + 32) else c

/-- JS `String.prototype.toLowerCase` (ASCII fragment). -/
def jsToLower (s : String) : String := ⟨s.data.map charLower⟩

/-- JS whitespace recognizer (ASCII fragment: space, tab, LF, CR). -/
def isWS (c : Char) : Bool := c == ' ' || c == '\t' || c == '\n' || c == '\r'

/-- JS `String.prototype.trim`: strip leading and trailing whitespace. -/
def jsTrim (s : String) : String :=
  ⟨((s.data.dropWhile isWS).reverse.dropWhile isWS).reverse⟩

/-- Whether the first list is an initial segment of the second. -/
def startsWithChars : List Char → List Char → Bool
  | [], _ => true
  | _ :: _, [] => false
  | p :: ps, c :: cs => p == c && startsWithChars ps cs

/-- Whether the second list occurs as a contiguous sublist of the first. -/
def hasSubChars : List Char → List Char → Bool
  | _, [] => true
  | [], _ :: _ => false
  | c :: cs, p :: ps => startsWithChars (p :: ps) (c :: cs) || hasSubChars cs (p :: ps)

/-- JS `String.prototype.includes`. -/
def strIncludes (s pat : String) : Bool := hasSubChars s.data pat.data

/-- A client-supplied history entry `{ role, content }`.  `content` is
`none` when the field is absent (JS `undefined`); role and present
content are text, as in the request payload's JSON shape. -/
structure Turn where
  role : String
  content : Option String
  deriving DecidableEq, Repr

/-- An entry of the sanitized history, `{ role, parts: [{ text }] }`.
The `parts` array built by `sanitizeHistory` is always the singleton
`[{ text: msg.content }]`, so it is modelled by its only element. -/
structure NormTurn where
  role : String
  text : Option String
  deriving DecidableEq, Repr

/-- The `history` field of the request body: either a JS array of
turns, or any non-array value (absent, null, a string, ...). -/
inductive HistoryInput where
  | notArray
  | arr (turns : List Turn)
  deriving DecidableEq, Repr

/-- The map step of `sanitizeHistory`:
`{ role: msg.role === "user" ? "user" : "model", parts: [{ text: msg.content }] }`. -/
def mapTurn (msg : Turn) : NormTurn :=
  { role := if msg.role = "user" then "user" else "model",
    text := msg.content }

/-- The filter step of `sanitizeHistory`:
`m.parts[0].text && m.parts[0].text.trim() !== ""`.
An absent text is falsy; a present text must be non-empty (truthiness)
and non-blank after trimming. -/
def keepTurn (m : NormTurn) : Bool :=
  match m.text with
  | none => false
  | some t => (t != "") && (jsTrim t != "")

/-- The while-shift loop of `sanitizeHistory`: remove leading entries
whose role is not `"user"`. -/
def dropLeadingNonUser : List NormTurn → List NormTurn
  | [] => []
  | m :: rest => if m.role ≠ "user" then dropLeadingNonUser rest else m :: rest

/-- `sanitizeHistory` from `backend/server.js` (identical in all three
revisions): non-arrays and empty arrays yield `[]`; otherwise map roles
to user/model, filter blank turns, and drop leading non-user turns. -/
def sanitizeHistory : HistoryInput → List NormTurn
  | .notArray => []
  | .arr ts =>
    if ts.length = 0 then []
    else dropLeadingNonUser ((ts.map mapTurn).filter keepTurn)

/-- Reading a sanitized turn back as a history turn (the spec's
`NormalizedTurn` has fields role and content). -/
def normTurnToTurn (m : NormTurn) : Turn :=
  { role := m.role, content := m.text }

/-- `MODEL_FLASH` in the first two revisions of `server.js`. -/
def MODEL_FLASH : String := "gemini-2.5-flash"

/-- `MODEL_PRO` in the first two revisions of `server.js`. -/
def MODEL_PRO : String := "gemini-2.5-pro"

/-- `MODEL_GROQ` (identical in all three revisions). -/
def MODEL_GROQ : String := "llama-3.1-8b-instant"

/-- `MODEL_FLASH` in the third revision of `server.js`. -/
def MODEL_FLASH_V3 : String := "gemini-2.0-flash-exp"

/-- `MODEL_PRO` in the third revision of `server.js`. -/
def MODEL_PRO_V3 : String := "gemini-2.0-pro-exp-02-05"

/-- The system persona string.  Only its first line is reproduced; the
remaining behavior-rule lines are plain prose that no claim inspects. -/
def SYSTEM_INSTRUCTION_INDRESH : String :=
  "You are Indresh 2.0, a smart, friendly, and helpful AI assistant made in Bharat."

/-- `const requestedType = (model || "gemini").toLowerCase()`: the
`model` field of the request body, defaulted when absent or empty
(both are falsy), then lowercased. -/
def requestedTypeOf (model : Option String) : String :=
  jsToLower (match model with
    | none => "gemini"
    | some s => if s = "" then "gemini" else s)

/-- The gemini-branch condition of the dispatch handler:
`requestedType.includes("gemini") || requestedType.includes("flash") || requestedType.includes("pro")`. -/
def isGeminiRoute (rt : String) : Bool :=
  strIncludes rt "gemini" || strIncludes rt "flash" || strIncludes rt "pro"

/-- Target-model selection in the first two revisions:
`requestedType.includes("flash") ? MODEL_FLASH : MODEL_PRO`. -/
def targetModelName (rt : String) : String :=
  if strIncludes rt "flash" then MODEL_FLASH else MODEL_PRO

/-- Target-model selection in the third revision:
`requestedType.includes("pro") ? MODEL_PRO : MODEL_FLASH`. -/
def targetModelNameV3 (rt : String) : String :=
  if strIncludes rt "pro" then MODEL_PRO_V3 else MODEL_FLASH_V3

/-- Credentials as read (and trimmed) at process start; an empty
string models an absent key, so `genAI` exists iff `geminiKey ≠ ""`. -/
structure Config where
  geminiKey : String
  groqKey : String
  deriving DecidableEq, Repr

/-- The outcomes of the two possible outbound calls: the gemini SDK
call either yields a reply text or throws with a message; the groq
fetch either yields `data.choices?.[0]?.message?.content` (possibly
absent) or throws with a message. -/
structure Oracle where
  geminiResp : Except String String
  groqResp : Except String (Option String)
  deriving Repr

/-- The `output` object of the JSON reply. -/
structure Output where
  role : String
  content : String
  via : Option String
  deriving DecidableEq, Repr

/-- One message of the groq request body. -/
structure GroqMsg where
  role : String
  content : Option String
  deriving DecidableEq, Repr

/-- An outbound network call attempted by the handler. -/
inductive Call where
  | geminiCall (modelName : String) (history : List NormTurn) (message : String)
  | groqCall (messages : List GroqMsg)
  deriving DecidableEq, Repr

/-- Whether a call goes to the secondary (groq) provider. -/
def Call.isGroq : Call → Bool
  | .groqCall _ => true
  | .geminiCall _ _ _ => false

/-- One element of `history.map(...)` on the groq branch:
`{ role: msg.role === "user" ? "user" : "assistant", content: msg.content }`. -/
def toGroqMsg (msg : Turn) : GroqMsg :=
  { role := if msg.role = "user" then "user" else "assistant",
    content := msg.content }

/-- `groqMessages`: system persona, then the raw history role-renamed,
then the new user message. -/
def groqMessagesOf (message : String) (ts : List Turn) : List GroqMsg :=
  { role := "system", content := some SYSTEM_INSTRUCTION_INDRESH } ::
    (ts.map toGroqMsg ++ [{ role := "user", content := some message }])

/-- The message of the TypeError thrown by `history.map(...)` when
`history` is not an array. -/
def mapTypeError : String := "history.map is not a function"

/-- The `"❌ Error: AI Key Missing"` reply returned when the selected
provider has no credential. -/
def keyMissingOutput : Output :=
  { role := "assistant", content := "❌ Error: AI Key Missing", via := none }

/-- The body of the `try` block of the `/api/chat` handler (first
revision; the third differs only in the target-model line embedded
separately as `targetModelNameV3`).  `Except.error` models an exception
escaping the `try` block, carrying the error message and the outbound
calls attempted before the throw; `Except.ok` models a `res.json`
reply, paired with the outbound calls made. -/
def tryBody (cfg : Config) (oracle : Oracle) (message : String)
    (history : HistoryInput) (model : Option String) :
    Except (String × List Call) (Output × List Call) :=
  let requestedType := requestedTypeOf model
  let geminiHistory := sanitizeHistory history
  if isGeminiRoute requestedType then
    if cfg.geminiKey = "" then .ok (keyMissingOutput, [])
    else
      let target := targetModelName requestedType
      match oracle.geminiResp with
      | .error e => .error (e, [.geminiCall target geminiHistory message])
      | .ok text =>
        .ok ({ role := "assistant", content := text,
               via := some ("Indresh (" ++ target ++ ")") },
             [.geminiCall target geminiHistory message])
  else
    if cfg.groqKey = "" then .ok (keyMissingOutput, [])
    else
      match history with
      | .notArray => .error (mapTypeError, [])
      | .arr ts =>
        let groqMessages := groqMessagesOf message ts
        match oracle.groqResp with
        | .error e => .error (e, [.groqCall groqMessages])
        | .ok contentOpt =>
          let reply :=
            match contentOpt with
            | none => "Error from API"
            | some s => if s = "" then "Error from API" else s
          .ok ({ role := "assistant", content := reply,
                 via := some "Indresh (Turbo)" },
               [.groqCall groqMessages])

/-- The catch handler's reply:
`{ output: { role: "assistant", content: ` ⚠️ Error: ...` } }`. -/
def errOutput (e : String) : Output :=
  { role := "assistant", content := "⚠️ Error: " ++ e ++ ".", via := none }

/-- The whole `/api/chat` handler: run the `try` body and convert any
escaping exception into the catch handler's textual reply. -/
def handleChat (cfg : Config) (oracle : Oracle) (message : String)
    (history : HistoryInput) (model : Option String) : Output × List Call :=
  match tryBody cfg oracle message history model with
  | .ok r => r
  | .error (e, calls) => (errOutput e, calls)

/-! ### Helper lemmas about the normalizer -/

/-- The while-shift loop yields `[]` or a list headed by a user turn. -/
theorem dropLeadingNonUser_shape (l : List NormTurn) :
    dropLeadingNonUser l = [] ∨
      ∃ m rest, dropLeadingNonUser l = m :: rest ∧ m.role = "user" := by
  induction l with
  | nil => exact Or.inl rfl
  | cons m rest ih =>
    by_cases h : m.role = "user"
    · exact Or.inr ⟨m, rest, by simp [dropLeadingNonUser, h], h⟩
    · simpa [dropLeadingNonUser, h] using ih

/-- The while-shift loop only removes elements. -/
theorem mem_dropLeadingNonUser {m : NormTurn} {l : List NormTurn}
    (h : m ∈ dropLeadingNonUser l) : m ∈ l := by
  induction l with
  | nil => simp [dropLeadingNonUser] at h
  | cons a rest ih =>
    by_cases ha : a.role = "user"
    · simpa [dropLeadingNonUser, ha] using h
    · rw [dropLeadingNonUser, if_pos (by simp [ha])] at h
      exact List.mem_cons_of_mem a (ih h)

/-- The while-shift loop is the identity on user-headed lists. -/
theorem dropLeadingNonUser_user_head (m : NormTurn) (rest : List NormTurn)
    (h : m.role = "user") : dropLeadingNonUser (m :: rest) = m :: rest := by
  simp [dropLeadingNonUser, h]

/-- Every element of a sanitized history arises from a source turn via
the map step and passes the blank filter. -/
theorem mem_sanitizeHistory {m : NormTurn} {hin : HistoryInput}
    (hm : m ∈ sanitizeHistory hin) :
    ∃ ts, hin = HistoryInput.arr ts ∧
      ∃ t ∈ ts, m = mapTurn t ∧ keepTurn m = true := by
  cases hin with
  | notArray => simp [sanitizeHistory] at hm
  | arr ts =>
    refine ⟨ts, rfl, ?_⟩
    simp only [sanitizeHistory] at hm
    by_cases hts : ts.length = 0
    · rw [if_pos hts] at hm; simp at hm
    · rw [if_neg hts] at hm
      have h1 := mem_dropLeadingNonUser hm
      have h2 := List.of_mem_filter h1
      have h3 := List.mem_of_mem_filter h1
      obtain ⟨t, ht, hmt⟩ := List.mem_map.mp h3
      exact ⟨t, ht, hmt.symm, h2⟩

/-- A sanitized history is `[]` or headed by a user turn. -/
theorem sanitizeHistory_shape (hin : HistoryInput) :
    sanitizeHistory hin = [] ∨
      ∃ m rest, sanitizeHistory hin = m :: rest ∧ m.role = "user" := by
  cases hin with
  | notArray => exact Or.inl rfl
  | arr ts =>
    simp only [sanitizeHistory]
    by_cases hts : ts.length = 0
    · rw [if_pos hts]; exact Or.inl rfl
    · rw [if_neg hts]; exact dropLeadingNonUser_shape _

/-- Unfolding `sanitizeHistory` on a non-empty array. -/
theorem sanitizeHistory_arr_ne (ts : List Turn) (h : ¬ ts.length = 0) :
    sanitizeHistory (HistoryInput.arr ts) =
      dropLeadingNonUser ((ts.map mapTurn).filter keepTurn) := by
  unfold sanitizeHistory
  simp [h]

/-- Re-mapping a sanitized turn whose role is already user/model is the
identity. -/
theorem mapTurn_normTurnToTurn {m : NormTurn}
    (h : m.role = "user" ∨ m.role = "model") :
    mapTurn (normTurnToTurn m) = m := by
  cases m with
  | mk r t => rcases h with h | h <;> (simp at h; subst h; simp [mapTurn, normTurnToTurn])

/-! ### Claims about the normalizer -/

/-- C2: for every history input, `normalize(h)` is either the empty
sequence or its first element has role `user`. -/
theorem normalize_leading_role (hin : HistoryInput) :
    sanitizeHistory hin = [] ∨
      ∃ m rest, sanitizeHistory hin = m :: rest ∧ m.role = "user" :=
  sanitizeHistory_shape hin

/-- C4: every element of `normalize(h)` has role user or model; it
arises from a source turn, whose role maps to `user` exactly when it is
`user` and to `model` otherwise, with content copied verbatim. -/
theorem normalize_role_mapping (hin : HistoryInput) (m : NormTurn)
    (hm : m ∈ sanitizeHistory hin) :
    (m.role = "user" ∨ m.role = "model") ∧
      ∃ ts, hin = HistoryInput.arr ts ∧ ∃ t ∈ ts,
        (t.role = "user" → m.role = "user") ∧
        (t.role ≠ "user" → m.role = "model") ∧
        m.text = t.content := by
  obtain ⟨ts, hts, t, ht, hmt, hk⟩ := mem_sanitizeHistory hm
  subst hmt
  constructor
  · by_cases h : t.role = "user"
    · exact Or.inl (by simp [mapTurn, h])
    · exact Or.inr (by simp [mapTurn, h])
  · exact ⟨ts, hts, t, ht, fun h => by simp [mapTurn, h],
      fun h => by simp [mapTurn, h], rfl⟩

/-- C4 witness: on the history `[{user, "hello"}]`, the sanitized
element `{user, "hello"}` satisfies the role-mapping property. -/
theorem normalize_role_mapping_witness :
    ((NormTurn.mk "user" (some "hello")).role = "user" ∨
      (NormTurn.mk "user" (some "hello")).role = "model") ∧
      ∃ ts, HistoryInput.arr [Turn.mk "user" (some "hello")] = HistoryInput.arr ts ∧
        ∃ t ∈ ts,
          (t.role = "user" → (NormTurn.mk "user" (some "hello")).role = "user") ∧
          (t.role ≠ "user" → (NormTurn.mk "user" (some "hello")).role = "model") ∧
          (NormTurn.mk "user" (some "hello")).text = t.content :=
  normalize_role_mapping (HistoryInput.arr [Turn.mk "user" (some "hello")])
    (NormTurn.mk "user" (some "hello")) (by decide)

/-- C5: no element of `normalize(h)` has blank content: its text is
present, non-empty, and non-empty after trimming. -/
theorem normalize_no_blank (hin : HistoryInput) (m : NormTurn)
    (hm : m ∈ sanitizeHistory hin) :
    ∃ t, m.text = some t ∧ t ≠ "" ∧ jsTrim t ≠ "" := by
  obtain ⟨ts, hts, t, ht, hmt, hk⟩ := mem_sanitizeHistory hm
  rw [keepTurn] at hk
  cases hx : m.text with
  | none => rw [hx] at hk; simp at hk
  | some s =>
    rw [hx] at hk
    simp only [Bool.and_eq_true, bne_iff_ne, ne_eq] at hk
    exact ⟨s, rfl, hk.1, hk.2⟩

/-- C5 witness: on the history `[{user, "hello"}]`, the sanitized
element has present, non-blank content. -/
theorem normalize_no_blank_witness :
    ∃ t, (NormTurn.mk "user" (some "hello")).text = some t ∧ t ≠ "" ∧ jsTrim t ≠ "" :=
  normalize_no_blank (HistoryInput.arr [Turn.mk "user" (some "hello")])
    (NormTurn.mk "user" (some "hello")) (by decide)

/-- C1: normalize is idempotent: re-sanitizing the sanitized history
(read back as history turns) returns it unchanged, for every input,
including the empty array and non-array values. -/
theorem normalize_idempotent (hin : HistoryInput) :
    sanitizeHistory (HistoryInput.arr ((sanitizeHistory hin).map normTurnToTurn)) =
      sanitizeHistory hin := by
  have hkeep : ∀ a ∈ sanitizeHistory hin, keepTurn a = true := by
    intro a ha
    obtain ⟨ts, _, t, _, _, hk⟩ := mem_sanitizeHistory ha
    exact hk
  have hrole : ∀ a ∈ sanitizeHistory hin, a.role = "user" ∨ a.role = "model" := by
    intro a ha
    obtain ⟨ts, _, t, _, hmt, _⟩ := mem_sanitizeHistory ha
    subst hmt
    by_cases h : t.role = "user"
    · exact Or.inl (by simp [mapTurn, h])
    · exact Or.inr (by simp [mapTurn, h])
  have hmapmap :
      (((sanitizeHistory hin).map normTurnToTurn).map mapTurn) = sanitizeHistory hin := by
    rw [List.map_map]
    calc (sanitizeHistory hin).map (mapTurn ∘ normTurnToTurn)
        = (sanitizeHistory hin).map id :=
          List.map_congr_left (fun a ha => mapTurn_normTurnToTurn (hrole a ha))
      _ = sanitizeHistory hin := List.map_id _
  rcases sanitizeHistory_shape hin with hempty | ⟨m, rest, hcons, hm⟩
  · rw [hempty]; rfl
  · have hlen : ¬ ((sanitizeHistory hin).map normTurnToTurn).length = 0 := by
      rw [hcons]; simp
    rw [sanitizeHistory_arr_ne _ hlen, hmapmap, List.filter_eq_self.mpr hkeep,
      hcons]
    exact dropLeadingNonUser_user_head m rest hm

/-! ### Helper lemmas about the dispatcher -/

/-- Every reply the try body returns without throwing carries role
`assistant`. -/
theorem tryBody_ok_role (cfg : Config) (oracle : Oracle) (message : String)
    (history : HistoryInput) (model : Option String) (r : Output) (calls : List Call)
    (h : tryBody cfg oracle message history model = Except.ok (r, calls)) :
    r.role = "assistant" := by
  unfold tryBody at h
  by_cases hroute : isGeminiRoute (requestedTypeOf model) = true
  · rw [if_pos hroute] at h
    by_cases hk : cfg.geminiKey = ""
    · rw [if_pos hk] at h
      cases h; rfl
    · rw [if_neg hk] at h
      cases hg : oracle.geminiResp with
      | error e => rw [hg] at h; cases h
      | ok text => rw [hg] at h; cases h; rfl
  · rw [if_neg hroute] at h
    by_cases hk : cfg.groqKey = ""
    · rw [if_pos hk] at h
      cases h; rfl
    · rw [if_neg hk] at h
      cases history with
      | notArray => cases h
      | arr ts =>
        cases hg : oracle.groqResp with
        | error e => rw [hg] at h; cases h
        | ok c => rw [hg] at h; cases h; rfl

/-! ### Claims about the dispatcher -/

/-- C3: the handler never propagates an exception: it is a total
function whose reply always carries role `assistant`, and whenever the
try body throws with message `e`, the caller receives the catch
handler's textual reply embedding `e`. -/
theorem dispatch_never_raises (cfg : Config) (oracle : Oracle) (message : String)
    (history : HistoryInput) (model : Option String) :
    (handleChat cfg oracle message history model).1.role = "assistant" ∧
      ∀ e calls, tryBody cfg oracle message history model = Except.error (e, calls) →
        handleChat cfg oracle message history model = (errOutput e, calls) := by
  constructor
  · cases htb : tryBody cfg oracle message history model with
    | error p =>
      obtain ⟨e, calls⟩ := p
      unfold handleChat
      rw [htb]
      rfl
    | ok r =>
      obtain ⟨out, calls⟩ := r
      have : handleChat cfg oracle message history model = (out, calls) := by
        unfold handleChat; rw [htb]
      rw [this]
      exact tryBody_ok_role cfg oracle message history model out calls htb
  · intro e calls h
    unfold handleChat
    rw [h]

/-- C3 witness: with the secondary provider configured, a hint routing
to it, and a non-array history, the try body throws and the handler
returns the textual error reply. -/
theorem dispatch_never_raises_witness :
    (handleChat ⟨"", "k"⟩ ⟨Except.ok "x", Except.ok none⟩ "hi"
        HistoryInput.notArray (some "zzz")).1.role = "assistant" ∧
      handleChat ⟨"", "k"⟩ ⟨Except.ok "x", Except.ok none⟩ "hi"
          HistoryInput.notArray (some "zzz") = (errOutput mapTypeError, []) :=
  ⟨(dispatch_never_raises ⟨"", "k"⟩ ⟨Except.ok "x", Except.ok none⟩ "hi"
      HistoryInput.notArray (some "zzz")).1,
   (dispatch_never_raises ⟨"", "k"⟩ ⟨Except.ok "x", Except.ok none⟩ "hi"
      HistoryInput.notArray (some "zzz")).2 mapTypeError [] rfl⟩

/-- C6: evaluation of the target-model selection at the hint
`"gemini"`, which contains neither `"flash"` nor `"pro"`: the first two
revisions select the capable pro model, but the third revision selects
the flash model, contradicting its own inline comment and the claim. -/
theorem gemini_hint_target_divergence :
    targetModelName (requestedTypeOf (some "gemini")) = MODEL_PRO ∧
      targetModelNameV3 (requestedTypeOf (some "gemini")) = MODEL_FLASH_V3 :=
  ⟨by decide, by decide⟩

/-- C7: when the gemini branch is selected and the primary credential
is absent, the handler replies with the configuration-error text
immediately and attempts no outbound call. -/
theorem missing_gemini_key_no_call (cfg : Config) (oracle : Oracle) (message : String)
    (history : HistoryInput) (model : Option String)
    (hkey : cfg.geminiKey = "")
    (hroute : isGeminiRoute (requestedTypeOf model) = true) :
    handleChat cfg oracle message history model = (keyMissingOutput, []) := by
  unfold handleChat tryBody
  rw [if_pos hroute, if_pos hkey]

/-- C7 witness: with no gemini key and hint `"gemini-pro"`, the reply
is the key-missing text and the call list is empty. -/
theorem missing_gemini_key_no_call_witness :
    handleChat ⟨"", ""⟩ ⟨Except.ok "x", Except.ok none⟩ "hi"
        (HistoryInput.arr []) (some "gemini-pro") = (keyMissingOutput, []) :=
  missing_gemini_key_no_call ⟨"", ""⟩ ⟨Except.ok "x", Except.ok none⟩ "hi"
    (HistoryInput.arr []) (some "gemini-pro") rfl (by decide)

/-- C8: a non-empty hint whose lowercase form contains none of
`"gemini"`, `"flash"`, `"pro"` makes the gemini-branch condition false,
and every outbound call the handler then makes goes to the secondary
(groq) provider. -/
theorem plain_hint_secondary (s : String)
    (hne : s ≠ "")
    (hg : strIncludes (jsToLower s) "gemini" = false)
    (hf : strIncludes (jsToLower s) "flash" = false)
    (hp : strIncludes (jsToLower s) "pro" = false) :
    isGeminiRoute (requestedTypeOf (some s)) = false ∧
      ∀ cfg oracle message history,
        ((handleChat cfg oracle message history (some s)).2).all Call.isGroq = true := by
  have hrt : requestedTypeOf (some s) = jsToLower s := by
    show jsToLower (if s = "" then "gemini" else s) = jsToLower s
    rw [if_neg hne]
  have hroute : isGeminiRoute (requestedTypeOf (some s)) = false := by
    rw [hrt]
    unfold isGeminiRoute
    rw [hg, hf, hp]
    rfl
  refine ⟨hroute, ?_⟩
  intro cfg oracle message history
  unfold handleChat tryBody
  rw [if_neg (by rw [hroute]; exact Bool.false_ne_true)]
  by_cases hk : cfg.groqKey = ""
  · rw [if_pos hk]
    rfl
  · rw [if_neg hk]
    cases history with
    | notArray => rfl
    | arr ts =>
      cases hgr : oracle.groqResp with
      | error e => simp [Call.isGroq]
      | ok c => simp [Call.isGroq]

/-- C8 witness: the hint `"groq-like-string"` contains no primary
keyword, routes past the gemini branch, and produces only groq calls. -/
theorem plain_hint_secondary_witness :
    isGeminiRoute (requestedTypeOf (some "groq-like-string")) = false ∧
      ((handleChat ⟨"", "k"⟩ ⟨Except.ok "x", Except.ok (some "y")⟩ "hi"
          (HistoryInput.arr []) (some "groq-like-string")).2).all Call.isGroq = true :=
  ⟨(plain_hint_secondary "groq-like-string" (by decide) (by decide) (by decide) (by decide)).1,
   (plain_hint_secondary "groq-like-string" (by decide) (by decide) (by decide) (by decide)).2
     ⟨"", "k"⟩ ⟨Except.ok "x", Except.ok (some "y")⟩ "hi" (HistoryInput.arr [])⟩

/-- C9: on the secondary path, a response whose first choice's message
content is absent yields the generic `"Error from API"` fallback as an
ordinary reply, after the one groq call. -/
theorem groq_no_choices_fallback (cfg : Config) (oracle : Oracle) (message : String)
    (ts : List Turn) (model : Option String)
    (hroute : isGeminiRoute (requestedTypeOf model) = false)
    (hkey : ¬ cfg.groqKey = "")
    (hresp : oracle.groqResp = Except.ok none) :
    handleChat cfg oracle message (HistoryInput.arr ts) model =
      ({ role := "assistant", content := "Error from API", via := some "Indresh (Turbo)" },
       [Call.groqCall (groqMessagesOf message ts)]) := by
  unfold handleChat tryBody
  rw [if_neg (by rw [hroute]; exact Bool.false_ne_true), if_neg hkey, hresp]

/-- C9 witness: concrete secondary-path dispatch with a choices-less
response produces the fallback reply. -/
theorem groq_no_choices_fallback_witness :
    handleChat ⟨"", "k"⟩ ⟨Except.ok "x", Except.ok none⟩ "hi"
        (HistoryInput.arr []) (some "zzz") =
      ({ role := "assistant", content := "Error from API", via := some "Indresh (Turbo)" },
       [Call.groqCall (groqMessagesOf "hi" [])]) :=
  groq_no_choices_fallback ⟨"", "k"⟩ ⟨Except.ok "x", Except.ok none⟩ "hi"
    [] (some "zzz") (by decide) (by decide) rfl

/-- C10: on the secondary path a non-array history is not treated as
the empty history the normalizer would produce: the map over the raw
history throws, the catch handler converts it to the degraded textual
reply, and no outbound call is made. -/
theorem groq_nonarray_history_error (cfg : Config) (oracle : Oracle) (message : String)
    (model : Option String)
    (hroute : isGeminiRoute (requestedTypeOf model) = false)
    (hkey : ¬ cfg.groqKey = "") :
    sanitizeHistory HistoryInput.notArray = [] ∧
      handleChat cfg oracle message HistoryInput.notArray model =
        (errOutput mapTypeError, []) := by
  refine ⟨rfl, ?_⟩
  unfold handleChat tryBody
  rw [if_neg (by rw [hroute]; exact Bool.false_ne_true), if_neg hkey]

/-- C10 witness: a concrete non-array history on the secondary path
yields the degraded error reply with no call. -/
theorem groq_nonarray_history_error_witness :
    sanitizeHistory HistoryInput.notArray = [] ∧
      handleChat ⟨"", "k"⟩ ⟨Except.ok "x", Except.ok none⟩ "hi"
          HistoryInput.notArray (some "zzz") = (errOutput mapTypeError, []) :=
  groq_nonarray_history_error ⟨"", "k"⟩ ⟨Except.ok "x", Except.ok none⟩ "hi"
    (some "zzz") (by decide) (by decide)

end Chatterbot

